import Mathlib

set_option maxHeartbeats 1000000

/-!
Verification development for `Server_Side_RPC.h`: a shallow embedding of the
server-side RPC dispatcher (callback registry, request matching, response
building, topic correlation and the subscribe/unsubscribe/resubscribe
lifecycle), together with theorems settling the specified properties.

Compile-time configuration of the C++ source is made explicit:
`Mode` captures `THINGSBOARD_ENABLE_DYNAMIC` (static/bounded storage with a
shared `MaxRPC` ceiling versus dynamic storage with per-handler budgets), and
a `dbg : Bool` parameter captures `THINGSBOARD_ENABLE_DEBUG`.
The two `THINGSBOARD_ENABLE_STL` branches of `Process_Json_Response` (an
`std::find_if` followed by one body execution, versus a `for` loop whose body
`continue`s on non-matching records and `return`s on every path of the matched
body) invoke the first matching record and then stop either way; the embedding
uses the first-match formulation that both branches share.

External collaborators (transport callbacks, logger) are modelled by an
oracle `Transport` for the boolean results of the subscribe/unsubscribe
callbacks, and by an `Event` trace recording every publish, subscribe,
unsubscribe and log call the code issues, in order.
-/

/-- Abstract decoded JSON value as handed around by the structured-data layer
(out of scope of this core, which never inspects payloads). -/
inductive JsonValue where
  | nullV : JsonValue
  | boolV : Bool → JsonValue
  | numV : Int → JsonValue
  | strV : String → JsonValue
deriving DecidableEq, Repr

/-- The observations `Process_Json_Response` makes of the inbound decoded
`JsonDocument`: presence and value of the method-name field
(`containsKey(RPC_METHOD_KEY)` / `data[RPC_METHOD_KEY]`), presence of the
parameters field (`containsKey(RPC_PARAMS_KEY)`), and the parameters value
(`data[RPC_PARAMS_KEY]`, which is the null variant when the field is absent). -/
structure JsonDoc where
  methodField : Option String
  hasParams : Bool
  paramsField : JsonValue

/-- State of the per-dispatch scratch output `JsonDocument` after the handler
returned, as observed by the dispatcher: `isNull()` (empty/unset),
`overflowed()` (capacity exceeded), and the produced document. -/
structure JsonBuffer where
  isNull : Bool
  overflowed : Bool
  doc : JsonValue

/-- Modelled from the spec: the Handler Record (§3) of `RPC_Callback.h`, which
is not under src/. An immutable tuple of a method name (a possibly-null C
string), a `response_budget` (only meaningful in dynamic mode), and the
application callback. The callback receives the parameters value and — since
whether the scratch buffer overflows depends on its configured capacity — the
capacity the dispatcher allocated, and yields the resulting buffer state. -/
structure RPC_Callback where
  name : Option String
  responseSize : Nat
  callback : JsonValue → Nat → JsonBuffer

/-- Accessor `RPC_Callback::Get_Name`. -/
def RPC_Callback.Get_Name (rpc : RPC_Callback) : Option String := rpc.name

/-- Accessor `RPC_Callback::Get_Response_Size`. -/
def RPC_Callback.Get_Response_Size (rpc : RPC_Callback) : Nat := rpc.responseSize

/-- `RPC_Callback::Call_Callback(param, json_buffer)`: run the handler on the
parameters with a scratch buffer of the given capacity. -/
def RPC_Callback.Call_Callback (rpc : RPC_Callback) (param : JsonValue)
    (capacity : Nat) : JsonBuffer :=
  rpc.callback param capacity

/-- Compile-time storage configuration (`THINGSBOARD_ENABLE_DYNAMIC`):
`staticMode MaxSubscriptions MaxRPC` is the bounded configuration
(fixed-capacity `Array`, shared `MaxRPC` response ceiling); `dynamicMode` is
the growable configuration (heap `Vector`, per-handler response budgets). -/
inductive Mode where
  | staticMode : Nat → Nat → Mode
  | dynamicMode : Mode

/-- Boolean results the transport collaborator returns for its
subscribe/unsubscribe callbacks (`m_subscribe_topic_callback`,
`m_unsubscribe_topic_callback`). -/
structure Transport where
  subscribeOk : Bool
  unsubscribeOk : Bool

/-- Observable calls the dispatcher makes on its collaborators, in order:
transport subscribe/unsubscribe requests, document publications
(`m_send_json_callback`), error logs (each mirroring one non-debug
`Logger` line of the source) and debug-only logs. -/
inductive Event where
  | subscribeTopic : String → Event
  | unsubscribeTopic : String → Event
  | publish : String → JsonValue → Nat → Event
  | logOverflow : Nat → Event
  | logCapacityExceeded : Event
  | logSubscribeFailed : String → Event
  | logDebug : String → Event
deriving DecidableEq, Repr

/-- `RPC_SUBSCRIBE_TOPIC` of the source. -/
def RPC_SUBSCRIBE_TOPIC : String := "v1/devices/me/rpc/request/+"

/-- `RPC_REQUEST_TOPIC` of the source. -/
def RPC_REQUEST_TOPIC : String := "v1/devices/me/rpc/request/"

/-- `RPC_SEND_RESPONSE_TOPIC` of the source. -/
def RPC_SEND_RESPONSE_TOPIC : String := "v1/devices/me/rpc/response/%u"

/-- `SERVER_RPC_METHOD_NULL` debug log text of the source. -/
def SERVER_RPC_METHOD_NULL : String := "Server-side RPC method name is NULL"

/-- `RPC_RESPONSE_NULL` debug log text of the source. -/
def RPC_RESPONSE_NULL : String := "Response JsonDocument is NULL, skipping sending"

/-- `NO_RPC_PARAMS_PASSED` debug log text of the source. -/
def NO_RPC_PARAMS_PASSED : String := "No parameters passed with RPC, passing null JSON"

/-- `CALLING_RPC_CB` debug log text of the source (formatted with the method name). -/
def CALLING_RPC_CB : String := "Calling subscribed callback for rpc with methodname "

namespace Helper

/-- Modelled from the spec: `Helper::stringIsNullorEmpty` (the `Helper` class is
not under src/). True exactly when the C string pointer is null or the string
is empty — §4.3 requires a matching record's name to be non-empty. -/
def stringIsNullorEmpty : Option String → Bool
  | none => true
  | some s => s.data.isEmpty

/-- Modelled from the spec: `Helper::distance(first, last)` (not under src/),
the element count of the incoming batch (§4.1's `incoming_count`); batches are
embedded directly as lists, so it is the list length. -/
def distance (batch : List RPC_Callback) : Nat := batch.length

/-- Decimal parse of a leading digit run, `atoi`-style: accumulates digits and
stops at the first non-digit; yields the accumulator (0 for no digits). -/
def parseDec : List Char → Nat → Nat
  | [], acc => acc
  | c :: cs, acc => if c.isDigit then parseDec cs (acc * 10 + (c.toNat - 48)) else acc

/-- Modelled from the spec: `Helper::parseRequestId(base, topic)` (not under
src/). §4.5: the inbound topic has shape request-prefix followed by the
request id, and the numeric suffix after the prefix is parsed as the request
identifier (decimal parse; non-numeric suffixes fall back to 0). -/
def parseRequestId (base topic : String) : Nat :=
  parseDec (topic.data.drop base.data.length) 0

/-- Modelled from the spec: the §4.5 serialized-size estimate
`Helper::Measure_Json` (not under src/) passed to the publish callback; a
simple serialized length of the abstract document. -/
def Measure_Json : JsonValue → Nat
  | .nullV => 4
  | .boolV true => 4
  | .boolV false => 5
  | .numV n => (toString n).length
  | .strV s => s.length + 2

end Helper

/-- Substitute the decimal rendering of `n` for the first `%u` placeholder. -/
def substU : List Char → Nat → List Char
  | [], _ => []
  | '%' :: 'u' :: rest, n => Nat.toDigits 10 n ++ rest
  | c :: rest, n => c :: substU rest n

/-- Modelled from the spec: the §4.5 outbound-topic formatting
(`Helper::detectSize` plus `snprintf`, `detectSize` not under src/): the
response topic is the fixed template with the request id substituted at its
single `%u` placeholder, sized exactly before formatting. -/
def formatResponseTopic (request_id : Nat) : String :=
  ⟨substU RPC_SEND_RESPONSE_TOPIC.data request_id⟩

/-- Model of C `strncmp(a, b, n)` on NUL-terminated strings embedded as char
lists (list end plays the terminator): compares at most `n` characters,
yielding 0 on equality and the difference of the first differing character
codes otherwise. -/
def strncmp : List Char → List Char → Nat → Int
  | _, _, 0 => 0
  | [], [], _ + 1 => 0
  | [], c :: _, _ + 1 => 0 - (c.toNat : Int)
  | c :: _, [], _ + 1 => (c.toNat : Int) - 0
  | a :: as, b :: bs, n + 1 =>
      if a = b then strncmp as bs n else (a.toNat : Int) - (b.toNat : Int)

/-- The match predicate of `Process_Json_Response` (lines 122-125 / 129-133):
a record matches when its name is neither null nor empty and
`strncmp(subscribedMethodName, method_name, strlen(subscribedMethodName))`
is 0. -/
def rpcMatches (method_name : String) (rpc : RPC_Callback) : Bool :=
  match rpc.Get_Name with
  | none => false
  | some subscribedMethodName =>
      !Helper.stringIsNullorEmpty (some subscribedMethodName) &&
        (strncmp subscribedMethodName.data method_name.data
          subscribedMethodName.data.length == 0)

/-- The record `Process_Json_Response` dispatches to: the first registered
record matching the inbound method name (`std::find_if` over
`m_rpc_callbacks` in registration order). -/
def Selected_Callback (st : List RPC_Callback) (method_name : String) :
    Option RPC_Callback :=
  st.find? (rpcMatches method_name)

/-- Response-buffer capacity `rpc_response_size` used for the matched record:
the compile-time `MaxRPC` ceiling in static mode, the record's
`Get_Response_Size()` budget in dynamic mode. -/
def responseBudget (mode : Mode) (rpc : RPC_Callback) : Nat :=
  match mode with
  | .staticMode _ maxRPC => maxRPC
  | .dynamicMode => rpc.Get_Response_Size

/-- Result of a registration or unsubscription call: the boolean return, the
registry contents after the call, and the trace of collaborator calls. -/
structure SubscribeResult where
  ok : Bool
  registry : List RPC_Callback
  events : List Event

/-- Result of one dispatch: registry after the call and the trace. -/
structure DispatchResult where
  registry : List RPC_Callback
  events : List Event

/-- `Server_Side_RPC::RPC_Subscribe(first, last)` (iterator overload): in
static/bounded mode, reject with a `MAX_SUBSCRIPTIONS_EXCEEDED` log when
`size() + distance(first, last) > capacity()` (capacity is
`MaxSubscriptions`); otherwise (and always in dynamic mode) call the
subscribe-topic callback and append the whole batch. -/
def RPC_Subscribe_Batch (mode : Mode) (st batch : List RPC_Callback) :
    SubscribeResult :=
  match mode with
  | .staticMode maxSubscriptions _ =>
      if st.length + Helper.distance batch > maxSubscriptions then
        ⟨false, st, [Event.logCapacityExceeded]⟩
      else
        ⟨true, st ++ batch, [Event.subscribeTopic RPC_SUBSCRIBE_TOPIC]⟩
  | .dynamicMode => ⟨true, st ++ batch, [Event.subscribeTopic RPC_SUBSCRIBE_TOPIC]⟩

/-- `Server_Side_RPC::RPC_Subscribe(callback)` (single-record overload): in
static/bounded mode, reject with a `MAX_SUBSCRIPTIONS_EXCEEDED` log when
`size() + 1 > capacity()`; otherwise (and always in dynamic mode) call the
subscribe-topic callback and `push_back` the record. -/
def RPC_Subscribe_Single (mode : Mode) (st : List RPC_Callback)
    (callback : RPC_Callback) : SubscribeResult :=
  match mode with
  | .staticMode maxSubscriptions _ =>
      if st.length + 1 > maxSubscriptions then
        ⟨false, st, [Event.logCapacityExceeded]⟩
      else
        ⟨true, st ++ [callback], [Event.subscribeTopic RPC_SUBSCRIBE_TOPIC]⟩
  | .dynamicMode => ⟨true, st ++ [callback], [Event.subscribeTopic RPC_SUBSCRIBE_TOPIC]⟩

/-- `Server_Side_RPC::RPC_Unsubscribe`: clear the registry, then ask the
collaborator to unsubscribe from `RPC_SUBSCRIBE_TOPIC` and return its
answer. -/
def RPC_Unsubscribe (tr : Transport) (st : List RPC_Callback) : SubscribeResult :=
  let _ := st
  ⟨tr.unsubscribeOk, [], [Event.unsubscribeTopic RPC_SUBSCRIBE_TOPIC]⟩

/-- `Server_Side_RPC::Resubscribe_Topic`: when the registry is non-empty,
re-issue the subscribe request (short-circuit: the callback runs only in that
case); if that call fails, log `SUBSCRIBE_TOPIC_FAILED` and return false;
in every other case return true. -/
def Resubscribe_Topic (tr : Transport) (st : List RPC_Callback) :
    Bool × List Event :=
  if st.isEmpty then
    (true, [])
  else if tr.subscribeOk then
    (true, [Event.subscribeTopic RPC_SUBSCRIBE_TOPIC])
  else
    (false, [Event.subscribeTopic RPC_SUBSCRIBE_TOPIC,
             Event.logSubscribeFailed RPC_SUBSCRIBE_TOPIC])

/-- `Server_Side_RPC::Process_Json_Response(topic, data)`: fail fast (debug
log only) when the method-name field is missing; otherwise find the first
matching record; if none, fall through with no effect; on a match, emit the
debug logs, run the handler on the parameters value with the configured
buffer capacity, then check the buffer in order — null: stop (debug log
only); overflowed: one `RPC_RESPONSE_OVERFLOWED` log carrying
`rpc_response_size`, no publish; otherwise parse the request id from the
topic, format the response topic and publish the produced document. The
registry is returned as well to record that no path mutates it. -/
def Process_Json_Response (mode : Mode) (dbg : Bool) (st : List RPC_Callback)
    (topic : String) : JsonDoc → DispatchResult
  | ⟨none, _, _⟩ => ⟨st, if dbg then [Event.logDebug SERVER_RPC_METHOD_NULL] else []⟩
  | ⟨some method_name, hasParams, paramsField⟩ =>
    match Selected_Callback st method_name with
    | none => ⟨st, []⟩
    | some rpc =>
      let debugEvents : List Event :=
        (if dbg && !hasParams then [Event.logDebug NO_RPC_PARAMS_PASSED] else []) ++
        (if dbg then [Event.logDebug (CALLING_RPC_CB ++ method_name)] else [])
      let param : JsonValue := if hasParams then paramsField else .nullV
      let rpc_response_size := responseBudget mode rpc
      let json_buffer := rpc.Call_Callback param rpc_response_size
      if json_buffer.isNull then
        ⟨st, debugEvents ++ (if dbg then [Event.logDebug RPC_RESPONSE_NULL] else [])⟩
      else if json_buffer.overflowed then
        ⟨st, debugEvents ++ [Event.logOverflow rpc_response_size]⟩
      else
        let request_id := Helper.parseRequestId RPC_REQUEST_TOPIC topic
        let responseTopic := formatResponseTopic request_id
        ⟨st, debugEvents ++
          [Event.publish responseTopic json_buffer.doc
            (Helper.Measure_Json json_buffer.doc)]⟩

/-- Classifier: publish calls in a trace. -/
def isPublishEvent : Event → Bool
  | .publish _ _ _ => true
  | _ => false

/-- Classifier: error-level log lines (the non-debug `Logger` calls of the
source); debug-only diagnostics are not error logs. -/
def isErrorLogEvent : Event → Bool
  | .logOverflow _ => true
  | .logCapacityExceeded => true
  | .logSubscribeFailed _ => true
  | _ => false

/-- Classifier: transport subscribe calls in a trace. -/
def isSubscribeEvent : Event → Bool
  | .subscribeTopic _ => true
  | _ => false

/-- The §4.3 matching rule as the spec words it, for comparison with the
code's `rpcMatches`: the record's name is present and non-empty and the
inbound method name starts with it (so a registered "foo" matches inbound
"foo" and "foobar" alike). -/
def specPrefixMatch (method_name : String) (rpc : RPC_Callback) : Prop :=
  ∃ nm, rpc.name = some nm ∧ nm ≠ "" ∧ ∃ rest, method_name = nm ++ rest

/-- C strings carry no interior NUL character. -/
def NulFree (s : String) : Prop := ∀ c ∈ s.data, c.toNat ≠ 0

instance (s : String) : Decidable (NulFree s) := by
  unfold NulFree; infer_instance

/-- Names stored in the registry are C strings: no interior NUL. -/
def nameNulFree (rpc : RPC_Callback) : Prop :=
  match rpc.name with
  | none => True
  | some nm => NulFree nm

instance (rpc : RPC_Callback) : Decidable (nameNulFree rpc) := by
  unfold nameNulFree
  cases rpc.name <;> infer_instance

theorem char_toNat_injective {x y : Char} (h : x.toNat = y.toNat) : x = y :=
  Char.eq_of_val_eq (UInt32.ext h)

theorem string_eq_of_data_eq {a b : String} (h : a.data = b.data) : a = b := by
  cases a; cases b; exact congrArg String.mk h

/-- `strncmp(a, b, strlen(a))` is 0 exactly when `a` is a prefix of `b`,
provided `a` has no interior NUL. -/
theorem strncmp_self_eq_zero_iff (a : List Char) (ha : ∀ c ∈ a, c.toNat ≠ 0) :
    ∀ b : List Char, strncmp a b a.length = 0 ↔ ∃ t, b = a ++ t := by
  induction a with
  | nil =>
    intro b
    simp [strncmp]
  | cons x xs ih =>
    intro b
    have hx : x.toNat ≠ 0 := ha x (List.mem_cons_self _ _)
    have ha' : ∀ c ∈ xs, c.toNat ≠ 0 := fun c hc => ha c (List.mem_cons_of_mem _ hc)
    cases b with
    | nil =>
      simp only [List.length_cons, strncmp]
      constructor
      · intro h
        exfalso
        omega
      · rintro ⟨t, ht⟩
        simp at ht
    | cons y ys =>
      simp only [List.length_cons, strncmp]
      by_cases hxy : x = y
      · subst hxy
        rw [if_pos rfl]
        rw [ih ha' ys]
        constructor
        · rintro ⟨t, rfl⟩
          exact ⟨t, rfl⟩
        · rintro ⟨t, ht⟩
          rw [List.cons_append] at ht
          exact ⟨t, (List.cons.injEq _ _ _ _ ▸ ht).2⟩
      · rw [if_neg hxy]
        constructor
        · intro h
          exfalso
          exact hxy (char_toNat_injective (by omega))
        · rintro ⟨t, ht⟩
          rw [List.cons_append] at ht
          exact absurd (List.cons.injEq _ _ _ _ ▸ ht).1.symm hxy

/-- The code's match predicate coincides with the spec's §4.3 matching rule
on NUL-free names. -/
theorem rpcMatches_iff_specPrefixMatch (m : String) (rpc : RPC_Callback)
    (h : nameNulFree rpc) :
    rpcMatches m rpc = true ↔ specPrefixMatch m rpc := by
  unfold rpcMatches specPrefixMatch RPC_Callback.Get_Name
  unfold nameNulFree at h
  cases hn : rpc.name with
  | none => simp [hn]
  | some nm =>
    rw [hn] at h
    simp only [Helper.stringIsNullorEmpty, Bool.and_eq_true, Bool.not_eq_true',
      beq_iff_eq, hn, Option.some.injEq]
    rw [strncmp_self_eq_zero_iff nm.data h m.data]
    constructor
    · rintro ⟨hne, t, ht⟩
      refine ⟨nm, rfl, ?_, ⟨t⟩, ?_⟩
      · intro hcon
        subst hcon
        simp at hne
      · apply string_eq_of_data_eq
        rw [ht, String.data_append]
    · rintro ⟨nm', hnm', hne, rest, hrest⟩
      subst hnm'
      constructor
      · cases hd : nm.data with
        | nil => exact absurd (string_eq_of_data_eq (by rw [hd])) hne
        | cons c cs => simp [List.isEmpty]
      · exact ⟨rest.data, by rw [hrest, String.data_append]⟩

/-- Decomposition of a successful linear search: the found element is a member
whose predecessors in the list all fail the predicate. -/
theorem find?_some_decomp {α : Type} (p : α → Bool) :
    ∀ (l : List α) (b : α), l.find? p = some b →
      ∃ l1 l2, l = l1 ++ b :: l2 ∧ p b = true ∧ ∀ a ∈ l1, p a = false := by
  intro l
  induction l with
  | nil =>
    intro b h
    simp [List.find?] at h
  | cons x xs ih =>
    intro b h
    cases hx : p x with
    | true =>
      rw [List.find?_cons_of_pos _ hx] at h
      cases h
      exact ⟨[], xs, rfl, hx, by simp⟩
    | false =>
      rw [List.find?_cons_of_neg _ (by simp [hx])] at h
      obtain ⟨l1, l2, rfl, hb, hall⟩ := ih b h
      refine ⟨x :: l1, l2, rfl, hb, ?_⟩
      intro a ha
      rcases List.mem_cons.mp ha with rfl | ha
      · exact hx
      · exact hall a ha

/-- The trace of a dispatch that matched `rpc` as the body of
`Process_Json_Response` lays it out, once the method field and the search
result are known. -/
theorem dispatch_matched_eq (mode : Mode) (dbg : Bool) (st : List RPC_Callback)
    (topic : String) (m : String) (hp : Bool) (pf : JsonValue)
    (rpc : RPC_Callback) (hsel : Selected_Callback st m = some rpc) :
    Process_Json_Response mode dbg st topic ⟨some m, hp, pf⟩ =
      (let debugEvents : List Event :=
        (if dbg && !hp then [Event.logDebug NO_RPC_PARAMS_PASSED] else []) ++
        (if dbg then [Event.logDebug (CALLING_RPC_CB ++ m)] else [])
      let json_buffer := rpc.Call_Callback (if hp then pf else .nullV) (responseBudget mode rpc)
      if json_buffer.isNull then
        ⟨st, debugEvents ++ (if dbg then [Event.logDebug RPC_RESPONSE_NULL] else [])⟩
      else if json_buffer.overflowed then
        ⟨st, debugEvents ++ [Event.logOverflow (responseBudget mode rpc)]⟩
      else
        ⟨st, debugEvents ++
          [Event.publish (formatResponseTopic (Helper.parseRequestId RPC_REQUEST_TOPIC topic))
            json_buffer.doc (Helper.Measure_Json json_buffer.doc)]⟩) := by
  simp only [Process_Json_Response, hsel]

/-- C10: a single dispatch leaves the handler registry unchanged on every
path — malformed request, no matching handler, empty response, overflowed
response and successful publication all preserve the registry contents and
order. -/
theorem c10_dispatch_preserves_registry (mode : Mode) (dbg : Bool)
    (st : List RPC_Callback) (topic : String) (data : JsonDoc) :
    (Process_Json_Response mode dbg st topic data).registry = st := by
  obtain ⟨mf, hp, pf⟩ := data
  cases mf with
  | none => rfl
  | some m =>
    cases hsel : Selected_Callback st m with
    | none => simp only [Process_Json_Response, hsel]
    | some rpc =>
      rw [dispatch_matched_eq mode dbg st topic m hp pf rpc hsel]
      dsimp only
      repeat' split
      all_goals rfl

/-- C8: `RPC_Unsubscribe` clears the registry to empty, issues exactly one
unsubscribe call to the transport collaborator, and returns true exactly when
the collaborator confirms unsubscription — the registry is cleared even when
the collaborator call fails. -/
theorem c8_unsubscribe_clears_and_reports (tr : Transport) (st : List RPC_Callback) :
    RPC_Unsubscribe tr st =
      ⟨tr.unsubscribeOk, [], [Event.unsubscribeTopic RPC_SUBSCRIBE_TOPIC]⟩ ∧
    ((RPC_Unsubscribe tr st).ok = true ↔ tr.unsubscribeOk = true) :=
  ⟨rfl, Iff.rfl⟩

/-- C5: dispatching a request document that lacks the method-name field
invokes no handler and produces exactly the debug diagnostic (when debug
logging is compiled in) — zero publish calls, zero error logs, zero registry
mutation. -/
theorem c5_missing_method_is_noop (mode : Mode) (dbg : Bool)
    (st : List RPC_Callback) (topic : String) (hp : Bool) (pf : JsonValue) :
    Process_Json_Response mode dbg st topic ⟨none, hp, pf⟩ =
      ⟨st, if dbg then [Event.logDebug SERVER_RPC_METHOD_NULL] else []⟩ ∧
    (Process_Json_Response mode dbg st topic ⟨none, hp, pf⟩).events.filter
      isPublishEvent = [] ∧
    (Process_Json_Response mode dbg st topic ⟨none, hp, pf⟩).events.filter
      isErrorLogEvent = [] := by
  refine ⟨rfl, ?_, ?_⟩ <;> cases dbg <;>
    simp [Process_Json_Response, isPublishEvent, isErrorLogEvent]

/-- C9 counterexample: with capacity 1 and an empty registry, an `AddAll` of
an empty batch is accepted, newly adds zero records, and still issues a
subscribe call to the transport collaborator — refuting that a subscribe call
is issued only when at least one record is newly added. -/
theorem c9_counterexample_empty_batch_subscribes :
    (RPC_Subscribe_Batch (Mode.staticMode 1 0) [] []).registry = [] ∧
    (RPC_Subscribe_Batch (Mode.staticMode 1 0) [] []).events =
      [Event.subscribeTopic RPC_SUBSCRIBE_TOPIC] ∧
    (RPC_Subscribe_Batch (Mode.staticMode 1 0) [] []).ok = true :=
  ⟨rfl, rfl, rfl⟩

/-- C9 amended: the dispatcher issues a subscribe call exactly when the
registration call is accepted (returns true), regardless of how many records
it adds; in particular a rejected registration issues no subscribe call, but
an accepted empty batch still issues one. -/
theorem c9_amended_subscribe_iff_accepted (mode : Mode)
    (st batch : List RPC_Callback) (cb : RPC_Callback) :
    ((RPC_Subscribe_Batch mode st batch).events.filter isSubscribeEvent =
        if (RPC_Subscribe_Batch mode st batch).ok
        then [Event.subscribeTopic RPC_SUBSCRIBE_TOPIC] else []) ∧
    ((RPC_Subscribe_Single mode st cb).events.filter isSubscribeEvent =
        if (RPC_Subscribe_Single mode st cb).ok
        then [Event.subscribeTopic RPC_SUBSCRIBE_TOPIC] else []) := by
  cases mode with
  | staticMode maxSubscriptions maxRPC =>
    constructor <;>
      · simp only [RPC_Subscribe_Batch, RPC_Subscribe_Single]
        split <;> simp [isSubscribeEvent]
  | dynamicMode =>
    constructor <;> simp [RPC_Subscribe_Batch, RPC_Subscribe_Single, isSubscribeEvent]

/-- C1: for every registry and every decoded request carrying a method-name
field, dispatch scans the registered handlers in insertion order and selects
for invocation exactly the first handler whose name is non-empty and is a
prefix of the inbound method name — the §4.3 prefix comparison over the
shorter, registered, name (a registered "foo" matches inbound "foo" and
"foobar" alike); records before it all fail the rule, records after it are
not inspected, and no handler is selected when none matches. In particular,
with handlers named "setValue" and "set" registered in that order, inbound
method "setValues" selects the "setValue" handler. -/
theorem c1_first_prefix_match_wins (st : List RPC_Callback) (m : String)
    (hnul : ∀ rpc ∈ st, nameNulFree rpc) :
    (∀ rpc, Selected_Callback st m = some rpc →
        specPrefixMatch m rpc ∧
        ∃ l1 l2, st = l1 ++ rpc :: l2 ∧ ∀ rpc' ∈ l1, ¬ specPrefixMatch m rpc') ∧
    (Selected_Callback st m = none → ∀ rpc ∈ st, ¬ specPrefixMatch m rpc) ∧
    (∀ cb1 cb2 : RPC_Callback, cb1.name = some "setValue" → cb2.name = some "set" →
        Selected_Callback [cb1, cb2] "setValues" = some cb1) := by
  refine ⟨?_, ?_, ?_⟩
  · intro rpc hsel
    obtain ⟨l1, l2, hst, hmatch, hfail⟩ := find?_some_decomp (rpcMatches m) st rpc hsel
    have hrmem : rpc ∈ st := hst ▸ List.mem_append_right l1 (List.mem_cons_self _ _)
    refine ⟨(rpcMatches_iff_specPrefixMatch m rpc (hnul rpc hrmem)).mp hmatch,
      l1, l2, hst, ?_⟩
    intro rpc' hmem hspec
    have hmem' : rpc' ∈ st := hst ▸ List.mem_append_left _ hmem
    have htrue := (rpcMatches_iff_specPrefixMatch m rpc' (hnul rpc' hmem')).mpr hspec
    rw [hfail rpc' hmem] at htrue
    exact Bool.false_ne_true htrue
  · intro hnone rpc hmem hspec
    exact List.find?_eq_none.mp hnone rpc hmem
      ((rpcMatches_iff_specPrefixMatch m rpc (hnul rpc hmem)).mpr hspec)
  · intro cb1 cb2 h1 h2
    have hm1 : rpcMatches "setValues" cb1 = true := by
      unfold rpcMatches RPC_Callback.Get_Name
      rw [h1]
      decide
    unfold Selected_Callback
    rw [List.find?_cons_of_pos _ hm1]

/-- Witness for C1 at a concrete two-record registry named
"setValue" and "set". -/
theorem c1_witness :
    (∀ rpc ∈ ([⟨some "setValue", 0, fun _ _ => ⟨true, false, JsonValue.nullV⟩⟩,
               ⟨some "set", 0, fun _ _ => ⟨true, false, JsonValue.nullV⟩⟩] :
        List RPC_Callback), nameNulFree rpc) ∧
    Selected_Callback
        [⟨some "setValue", 0, fun _ _ => ⟨true, false, JsonValue.nullV⟩⟩,
         ⟨some "set", 0, fun _ _ => ⟨true, false, JsonValue.nullV⟩⟩] "setValues" =
      some ⟨some "setValue", 0, fun _ _ => ⟨true, false, JsonValue.nullV⟩⟩ :=
  ⟨by decide,
   (c1_first_prefix_match_wins
      [⟨some "setValue", 0, fun _ _ => ⟨true, false, JsonValue.nullV⟩⟩,
       ⟨some "set", 0, fun _ _ => ⟨true, false, JsonValue.nullV⟩⟩]
      "setValues" (by decide)).2.2 _ _ rfl rfl⟩

/-- C7: `Resubscribe_Topic` issues a subscribe call iff the registry is
non-empty at the time of the call, never more than one (no retry); it returns
false exactly when the registry is non-empty and the collaborator's subscribe
call fails, and the failure is then logged. -/
theorem c7_resubscribe_iff_nonempty (tr : Transport) (st : List RPC_Callback) :
    ((Resubscribe_Topic tr st).2.filter isSubscribeEvent =
        if st.isEmpty then [] else [Event.subscribeTopic RPC_SUBSCRIBE_TOPIC]) ∧
    ((Resubscribe_Topic tr st).1 = false ↔
        st.isEmpty = false ∧ tr.subscribeOk = false) ∧
    ((Resubscribe_Topic tr st).1 = false →
        (Resubscribe_Topic tr st).2.filter isErrorLogEvent =
          [Event.logSubscribeFailed RPC_SUBSCRIBE_TOPIC]) := by
  obtain ⟨subOk, unsubOk⟩ := tr
  cases st <;> cases subOk <;>
    simp [Resubscribe_Topic, isSubscribeEvent, isErrorLogEvent, List.isEmpty]

/-- Witness for C7: non-empty registry and failing collaborator. -/
theorem c7_witness :
    (Resubscribe_Topic ⟨false, true⟩
        [⟨some "a", 0, fun _ _ => ⟨true, false, JsonValue.nullV⟩⟩]).1 = false ∧
    (Resubscribe_Topic ⟨false, true⟩
        [⟨some "a", 0, fun _ _ => ⟨true, false, JsonValue.nullV⟩⟩]).2.filter
        isErrorLogEvent = [Event.logSubscribeFailed RPC_SUBSCRIBE_TOPIC] :=
  ⟨rfl, (c7_resubscribe_iff_nonempty ⟨false, true⟩
      [⟨some "a", 0, fun _ _ => ⟨true, false, JsonValue.nullV⟩⟩]).2.2 rfl⟩

/-- C3: in bounded mode, a registration whose incoming count would exceed
capacity returns false, mutates nothing and issues no subscribe call (only
the capacity-exceeded log); a batch either fits entirely or adds nothing;
and both overloads preserve `size() ≤ capacity()`. -/
theorem c3_bounded_capacity (maxSubscriptions maxRPC : Nat)
    (st batch : List RPC_Callback) (cb : RPC_Callback) :
    (st.length + Helper.distance batch > maxSubscriptions →
        RPC_Subscribe_Batch (Mode.staticMode maxSubscriptions maxRPC) st batch =
          ⟨false, st, [Event.logCapacityExceeded]⟩) ∧
    (st.length + 1 > maxSubscriptions →
        RPC_Subscribe_Single (Mode.staticMode maxSubscriptions maxRPC) st cb =
          ⟨false, st, [Event.logCapacityExceeded]⟩) ∧
    ((RPC_Subscribe_Batch (Mode.staticMode maxSubscriptions maxRPC) st batch).registry
        = st ++ batch ∨
     (RPC_Subscribe_Batch (Mode.staticMode maxSubscriptions maxRPC) st batch).registry
        = st) ∧
    (st.length ≤ maxSubscriptions →
        (RPC_Subscribe_Batch (Mode.staticMode maxSubscriptions maxRPC) st batch).registry.length
            ≤ maxSubscriptions ∧
        (RPC_Subscribe_Single (Mode.staticMode maxSubscriptions maxRPC) st cb).registry.length
            ≤ maxSubscriptions) := by
  simp only [RPC_Subscribe_Batch, RPC_Subscribe_Single, Helper.distance]
  refine ⟨fun h => by rw [if_pos h], fun h => by rw [if_pos h], ?_, ?_⟩
  · split
    · right; rfl
    · left; rfl
  · intro hle
    constructor
    · split
      · simpa using hle
      · rename_i hgt
        simp only [List.length_append] at hgt ⊢
        omega
    · split
      · simpa using hle
      · rename_i hgt
        simp only [List.length_append, List.length_cons, List.length_nil] at hgt ⊢
        omega

/-- Witness for C3: capacity 1, one registered record, incoming batch of one
more record is rejected without mutation. -/
theorem c3_witness :
    ([⟨some "a", 0, fun _ _ => ⟨true, false, JsonValue.nullV⟩⟩] :
        List RPC_Callback).length +
      Helper.distance [⟨some "b", 0, fun _ _ => ⟨true, false, JsonValue.nullV⟩⟩] > 1 ∧
    RPC_Subscribe_Batch (Mode.staticMode 1 0)
        [⟨some "a", 0, fun _ _ => ⟨true, false, JsonValue.nullV⟩⟩]
        [⟨some "b", 0, fun _ _ => ⟨true, false, JsonValue.nullV⟩⟩] =
      ⟨false, [⟨some "a", 0, fun _ _ => ⟨true, false, JsonValue.nullV⟩⟩],
       [Event.logCapacityExceeded]⟩ :=
  ⟨by decide,
   (c3_bounded_capacity 1 0
      [⟨some "a", 0, fun _ _ => ⟨true, false, JsonValue.nullV⟩⟩]
      [⟨some "b", 0, fun _ _ => ⟨true, false, JsonValue.nullV⟩⟩]
      ⟨some "b", 0, fun _ _ => ⟨true, false, JsonValue.nullV⟩⟩).1 (by decide)⟩

/-- C6: a request whose method name matches no registered handler under the
§4.3 rule is silently dropped: no handler is invoked, no publish and no log
is issued, and the registry is unchanged. -/
theorem c6_no_match_drops_request (mode : Mode) (dbg : Bool)
    (st : List RPC_Callback) (topic : String) (hp : Bool) (pf : JsonValue)
    (m : String) (hnul : ∀ rpc ∈ st, nameNulFree rpc)
    (hnomatch : ∀ rpc ∈ st, ¬ specPrefixMatch m rpc) :
    Process_Json_Response mode dbg st topic ⟨some m, hp, pf⟩ = ⟨st, []⟩ := by
  have hfind : Selected_Callback st m = none := by
    unfold Selected_Callback
    rw [List.find?_eq_none]
    intro rpc hmem hmatch
    exact hnomatch rpc hmem
      ((rpcMatches_iff_specPrefixMatch m rpc (hnul rpc hmem)).mp hmatch)
  simp only [Process_Json_Response, hfind]

/-- Witness for C6: a registry with the single name "bb" and inbound
method "a". -/
theorem c6_witness :
    (∀ rpc ∈ ([⟨some "bb", 0, fun _ _ => ⟨true, false, JsonValue.nullV⟩⟩] :
        List RPC_Callback), nameNulFree rpc) ∧
    (∀ rpc ∈ ([⟨some "bb", 0, fun _ _ => ⟨true, false, JsonValue.nullV⟩⟩] :
        List RPC_Callback), ¬ specPrefixMatch "a" rpc) ∧
    Process_Json_Response Mode.dynamicMode true
        [⟨some "bb", 0, fun _ _ => ⟨true, false, JsonValue.nullV⟩⟩] "t"
        ⟨some "a", false, JsonValue.nullV⟩ =
      ⟨[⟨some "bb", 0, fun _ _ => ⟨true, false, JsonValue.nullV⟩⟩], []⟩ := by
  have hno : ∀ rpc ∈ ([⟨some "bb", 0, fun _ _ => ⟨true, false, JsonValue.nullV⟩⟩] :
      List RPC_Callback), ¬ specPrefixMatch "a" rpc := by
    intro rpc hmem
    rcases List.mem_singleton.mp hmem with rfl
    rintro ⟨nm, hnm, hne, rest, hrest⟩
    have hbb : ("bb" : String) = nm := by injection hnm
    subst hbb
    have hd := congrArg String.data hrest
    rw [String.data_append] at hd
    have hlen : ("a" : String).data.length = ("bb" : String).data.length + rest.data.length := by
      rw [hd, List.length_append]
    have h1 : ("a" : String).data.length = 1 := rfl
    have h2 : ("bb" : String).data.length = 2 := rfl
    omega
  exact ⟨by decide, hno,
    c6_no_match_drops_request Mode.dynamicMode true _ "t" false JsonValue.nullV "a"
      (by decide) hno⟩

/-- C2: after a matched handler invocation the post-conditions are checked in
order — an empty/unset buffer yields no publish and no error log; a non-empty
overflowed buffer yields no publish and exactly one diagnostic log carrying
the configured budget (`MaxRPC` in static mode, the record's response budget
in dynamic mode); otherwise exactly one publish occurs. -/
theorem c2_matched_postconditions (mode : Mode) (dbg : Bool)
    (st : List RPC_Callback) (topic : String) (hp : Bool) (pf : JsonValue)
    (m : String) (rpc : RPC_Callback)
    (hsel : Selected_Callback st m = some rpc) :
    ((rpc.Call_Callback (if hp then pf else .nullV) (responseBudget mode rpc)).isNull = true →
        (Process_Json_Response mode dbg st topic ⟨some m, hp, pf⟩).events.filter
            isPublishEvent = [] ∧
        (Process_Json_Response mode dbg st topic ⟨some m, hp, pf⟩).events.filter
            isErrorLogEvent = []) ∧
    ((rpc.Call_Callback (if hp then pf else .nullV) (responseBudget mode rpc)).isNull = false →
     (rpc.Call_Callback (if hp then pf else .nullV) (responseBudget mode rpc)).overflowed = true →
        (Process_Json_Response mode dbg st topic ⟨some m, hp, pf⟩).events.filter
            isPublishEvent = [] ∧
        (Process_Json_Response mode dbg st topic ⟨some m, hp, pf⟩).events.filter
            isErrorLogEvent = [Event.logOverflow (responseBudget mode rpc)]) ∧
    ((rpc.Call_Callback (if hp then pf else .nullV) (responseBudget mode rpc)).isNull = false →
     (rpc.Call_Callback (if hp then pf else .nullV) (responseBudget mode rpc)).overflowed = false →
        ((Process_Json_Response mode dbg st topic ⟨some m, hp, pf⟩).events.filter
            isPublishEvent).length = 1) := by
  rw [dispatch_matched_eq mode dbg st topic m hp pf rpc hsel]
  dsimp only
  refine ⟨?_, ?_, ?_⟩
  · intro hnull
    rw [if_pos hnull]
    cases dbg <;> cases hp <;>
      simp [isPublishEvent, isErrorLogEvent, List.filter_append]
  · intro hnull hov
    rw [if_neg (by simp [hnull]), if_pos hov]
    cases dbg <;> cases hp <;>
      simp [isPublishEvent, isErrorLogEvent, List.filter_append]
  · intro hnull hov
    rw [if_neg (by simp [hnull]), if_neg (by simp [hov])]
    cases dbg <;> cases hp <;>
      simp [isPublishEvent, isErrorLogEvent, List.filter_append]

/-- Witness for C2: static mode with `MaxRPC = 9`; the handler overflows, so
no publish occurs and exactly one overflow log carrying 9 is emitted. -/
theorem c2_witness :
    Selected_Callback [⟨some "a", 0, fun _ _ => ⟨false, true, JsonValue.nullV⟩⟩] "a" =
      some ⟨some "a", 0, fun _ _ => ⟨false, true, JsonValue.nullV⟩⟩ ∧
    (Process_Json_Response (Mode.staticMode 4 9) false
        [⟨some "a", 0, fun _ _ => ⟨false, true, JsonValue.nullV⟩⟩] "t"
        ⟨some "a", false, JsonValue.nullV⟩).events.filter isPublishEvent = [] ∧
    (Process_Json_Response (Mode.staticMode 4 9) false
        [⟨some "a", 0, fun _ _ => ⟨false, true, JsonValue.nullV⟩⟩] "t"
        ⟨some "a", false, JsonValue.nullV⟩).events.filter isErrorLogEvent =
      [Event.logOverflow 9] :=
  ⟨rfl,
   (c2_matched_postconditions (Mode.staticMode 4 9) false
      [⟨some "a", 0, fun _ _ => ⟨false, true, JsonValue.nullV⟩⟩] "t" false
      JsonValue.nullV "a" ⟨some "a", 0, fun _ _ => ⟨false, true, JsonValue.nullV⟩⟩
      rfl).2.1 rfl rfl⟩

/-- C4: with inbound topic the request prefix followed by 42 and a matched
handler producing a non-empty, non-overflowed document, exactly one publish
occurs; its topic is the response template with exactly 42 substituted at the
`%u` placeholder, and the published document is the handler's produced
document unmodified. -/
theorem c4_topic_correlation (mode : Mode) (dbg : Bool)
    (st : List RPC_Callback) (hp : Bool) (pf : JsonValue) (m : String)
    (rpc : RPC_Callback) (hsel : Selected_Callback st m = some rpc)
    (hnull : (rpc.Call_Callback (if hp then pf else .nullV)
        (responseBudget mode rpc)).isNull = false)
    (hov : (rpc.Call_Callback (if hp then pf else .nullV)
        (responseBudget mode rpc)).overflowed = false) :
    (Process_Json_Response mode dbg st (RPC_REQUEST_TOPIC ++ "42")
        ⟨some m, hp, pf⟩).events.filter isPublishEvent =
      [Event.publish "v1/devices/me/rpc/response/42"
        (rpc.Call_Callback (if hp then pf else .nullV) (responseBudget mode rpc)).doc
        (Helper.Measure_Json
          (rpc.Call_Callback (if hp then pf else .nullV) (responseBudget mode rpc)).doc)] := by
  have htopic : formatResponseTopic
      (Helper.parseRequestId RPC_REQUEST_TOPIC (RPC_REQUEST_TOPIC ++ "42")) =
      "v1/devices/me/rpc/response/42" := by decide
  rw [dispatch_matched_eq mode dbg st (RPC_REQUEST_TOPIC ++ "42") m hp pf rpc hsel]
  dsimp only
  rw [if_neg (by simp [hnull]), if_neg (by simp [hov]), htopic]
  cases dbg <;> cases hp <;> simp [isPublishEvent, List.filter_append]

/-- Witness for C4: a handler answering with a concrete string document on
request id 42. -/
theorem c4_witness :
    Selected_Callback [⟨some "a", 0, fun _ _ => ⟨false, false, JsonValue.strV "ok"⟩⟩] "a" =
      some ⟨some "a", 0, fun _ _ => ⟨false, false, JsonValue.strV "ok"⟩⟩ ∧
    (Process_Json_Response Mode.dynamicMode false
        [⟨some "a", 0, fun _ _ => ⟨false, false, JsonValue.strV "ok"⟩⟩]
        (RPC_REQUEST_TOPIC ++ "42")
        ⟨some "a", false, JsonValue.nullV⟩).events.filter isPublishEvent =
      [Event.publish "v1/devices/me/rpc/response/42" (JsonValue.strV "ok")
        (Helper.Measure_Json (JsonValue.strV "ok"))] :=
  ⟨rfl,
   c4_topic_correlation Mode.dynamicMode false
      [⟨some "a", 0, fun _ _ => ⟨false, false, JsonValue.strV "ok"⟩⟩] false
      JsonValue.nullV "a" ⟨some "a", 0, fun _ _ => ⟨false, false, JsonValue.strV "ok"⟩⟩
      rfl rfl rfl⟩

/-- Witness for C10 at a concrete registry and request. -/
theorem c10_witness :
    (Process_Json_Response Mode.dynamicMode true
        [⟨some "a", 0, fun _ _ => ⟨false, false, JsonValue.strV "ok"⟩⟩] "t"
        ⟨some "a", true, JsonValue.numV 3⟩).registry =
      [⟨some "a", 0, fun _ _ => ⟨false, false, JsonValue.strV "ok"⟩⟩] :=
  c10_dispatch_preserves_registry Mode.dynamicMode true
    [⟨some "a", 0, fun _ _ => ⟨false, false, JsonValue.strV "ok"⟩⟩] "t"
    ⟨some "a", true, JsonValue.numV 3⟩
